import Mathlib

/-!
Framez — like/hide interaction layer, shallow embedding.

This file embeds, in Lean 4, the parts of the Framez codebase that govern
optimistic ("speculative") like/hide interactions:

* the zustand view-state store (`src/src/store/settingsStore.ts`):
  `likedPostIds` / `hiddenPostIds` arrays and the actions
  `setLikedPostIds`, `applyLikeState`, `setHiddenPostIds`, `toggleLike`,
  `hidePost`, `unhidePost`;
* the reconciler hook `usePostInteractions`
  (`src/src/hooks/useThemeColors.ts`): `toggleLike` and `hidePost`;
* the Convex server mutations (`convex/posts.ts`): `toggleLike`,
  `hidePost`, `unhidePost`.

Conventions of the embedding:

* JS string arrays become `List String`; `array.includes(x)` becomes
  decidable membership `x ∈ l`; `array.concat(x)` appends at the end
  (`l ++ [x]`); `array.filter(pred)` becomes `List.filter`;
  `Array.from(new Set(ids))` becomes `arrayFromSet` (first-occurrence
  deduplication, which is the iteration order of a JS `Set`).
* A zustand action is a function from the relevant state component to the
  new component, paired with a `Bool` that records whether the updater
  returned a fresh partial object.  zustand compares the updater's result
  with the previous state via `Object.is` and notifies subscribers only
  when a fresh object is returned, so the `Bool` is exactly "observers
  were notified".
* The async reconciler handlers are split at their unique `await`: a
  synchronous phase-1 function (everything executed before the remote
  mutation is invoked) and a settle function (the `then`/`catch`
  continuation, applied to whatever the client state is when the remote
  call resolves).  A whole invocation with no interleaved state change is
  the composition `…Run`, which takes the remote outcome as a parameter;
  a result that is constant in that parameter corresponds to code that
  never performs the network call.
* A Convex mutation becomes `Db → args → Except String (Db × result)`:
  `throw new Error(msg)` becomes `.error msg`, and an erroring Convex
  mutation commits no writes, so the error case carries no database.
  `Date.now()` becomes an explicit `now : Nat` argument.  Convex `.unique()`
  returns the sole match, `null` when there is none, and throws when the
  index holds more than one match (`uniqueMatch` below).  Document ids
  (`_id`) become a `docId : Nat` drawn from a `nextId` counter.
* Server documents keep only the fields the interaction layer reads or
  writes (`posts._id/authorId/likeCount`, and the full `postLikes` /
  `hiddenPosts` rows); `likeCount` is `v.optional(v.number())` in the
  schema, hence `Option Nat` here.
-/

namespace Framez

/-- Model of `Array.from(new Set(ids))`: deduplicate, keeping the first occurrence
of each element in order (a JS `Set` iterates in insertion order). -/
def arrayFromSet : List String → List String
  | [] => []
  | x :: xs => x :: arrayFromSet (xs.filter (fun i => decide (i ≠ x)))
termination_by l => l.length
decreasing_by
  simp only [List.length_cons]
  exact Nat.lt_succ_of_le (List.length_filter_le _ _)

namespace SettingsStore

/-- Action `setLikedPostIds` from `settingsStore.ts`:
`set({ likedPostIds: Array.from(new Set(ids)) })`. -/
def setLikedPostIds (ids : List String) : List String :=
  arrayFromSet ids

/-- Action `setHiddenPostIds` from `settingsStore.ts`:
`set({ hiddenPostIds: Array.from(new Set(ids)) })`. -/
def setHiddenPostIds (ids : List String) : List String :=
  arrayFromSet ids

/-- Action `applyLikeState(postId, liked)` from `settingsStore.ts`.  Returns the
new `likedPostIds` and whether a fresh partial was returned to `set`
(i.e. whether zustand notifies subscribers). -/
def applyLikeState (likedPostIds : List String) (postId : String)
    (liked : Bool) : List String × Bool :=
  let hasLiked : Bool := decide (postId ∈ likedPostIds)
  if liked && hasLiked then
    (likedPostIds, false)
  else if !liked && !hasLiked then
    (likedPostIds, false)
  else if liked then
    (likedPostIds ++ [postId], true)
  else
    (likedPostIds.filter (fun i => decide (i ≠ postId)), true)

/-- The store action `toggleLike(postId)` from `settingsStore.ts`:
remove the id when present, append it when absent (always returns a
fresh partial). -/
def toggleLike (likedPostIds : List String) (postId : String) :
    List String :=
  if postId ∈ likedPostIds then
    likedPostIds.filter (fun i => decide (i ≠ postId))
  else
    likedPostIds ++ [postId]

/-- The store action `hidePost(postId)` from `settingsStore.ts`: no-op
(same state object, no notification) when already hidden, else append. -/
def hidePost (hiddenPostIds : List String) (postId : String) :
    List String × Bool :=
  if postId ∈ hiddenPostIds then
    (hiddenPostIds, false)
  else
    (hiddenPostIds ++ [postId], true)

/-- The store action `unhidePost(postId)` from `settingsStore.ts`: no-op
when not hidden, else remove. -/
def unhidePost (hiddenPostIds : List String) (postId : String) :
    List String × Bool :=
  if postId ∈ hiddenPostIds then
    (hiddenPostIds.filter (fun i => decide (i ≠ postId)), true)
  else
    (hiddenPostIds, false)

end SettingsStore

/-- The client view-state touched by `usePostInteractions`. -/
structure ClientState where
  likedPostIds : List String
  hiddenPostIds : List String
deriving Repr, DecidableEq

/-- Result of the server `toggleLike` mutation. -/
structure LikeResult where
  liked : Bool
  likeCount : Nat
deriving Repr, DecidableEq

/-- Result of the server `hidePost` / `unhidePost` mutations. -/
structure HideResult where
  hidden : Bool
deriving Repr, DecidableEq

/-- Errors thrown by the reconciler hook, per the spec's taxonomy.
`unauthenticated` is `new Error('You need to be signed in to …')`,
`selfActionForbidden` is `new Error('You cannot hide your own post.')`,
and `remote e` re-throws an error `e` produced by the remote call. -/
inductive HookError where
  | unauthenticated
  | selfActionForbidden
  | remote (msg : String)
deriving Repr, DecidableEq

namespace PostInteractions

open SettingsStore

/-- Synchronous prefix of `usePostInteractions().toggleLike(postId)`: the
authentication guard, the `wasLiked` snapshot, and the speculative local
toggle — everything executed before `toggleLikeMutation` is awaited.
Returns the state at the suspension point and the captured `wasLiked`. -/
def toggleLikePhase1 (currentUserId : String) (s : ClientState)
    (postId : String) : Except HookError (ClientState × Bool) :=
  if currentUserId = "" then
    .error .unauthenticated
  else
    let wasLiked : Bool := decide (postId ∈ s.likedPostIds)
    .ok ({ s with likedPostIds := SettingsStore.toggleLike s.likedPostIds postId },
      wasLiked)

/-- Continuation of `toggleLike` once the remote call settles, applied to
the client state current at that moment: on success overwrite membership
with the authoritative `result.liked`; on rejection roll membership back
to the captured `wasLiked` and re-throw. -/
def toggleLikeSettle (s : ClientState) (postId : String) (wasLiked : Bool)
    (remote : Except String LikeResult) :
    ClientState × Except HookError LikeResult :=
  match remote with
  | .ok r =>
    ({ s with likedPostIds := (applyLikeState s.likedPostIds postId r.liked).1 },
      .ok r)
  | .error e =>
    ({ s with likedPostIds := (applyLikeState s.likedPostIds postId wasLiked).1 },
      .error (.remote e))

/-- A whole `toggleLike` invocation with no interleaved state change:
phase 1, then — only if phase 1 did not throw — the remote call and the
settle continuation.  `remote` is the outcome of the remote mutation; a
run whose result is constant in `remote` never reached the network. -/
def toggleLikeRun (currentUserId : String) (s : ClientState)
    (postId : String) (remote : Except String LikeResult) :
    ClientState × Except HookError LikeResult :=
  match toggleLikePhase1 currentUserId s postId with
  | .error e => (s, .error e)
  | .ok (s1, wasLiked) => toggleLikeSettle s1 postId wasLiked remote

/-- Synchronous prefix of `usePostInteractions().hidePost(postId,
postAuthorId)`: the authentication and self-hide guards, the `wasHidden`
snapshot, and the speculative hide (applied only when not already
hidden). -/
def hidePostPhase1 (currentUserId : String) (s : ClientState)
    (postId postAuthorId : String) :
    Except HookError (ClientState × Bool) :=
  if currentUserId = "" then
    .error .unauthenticated
  else if currentUserId = postAuthorId then
    .error .selfActionForbidden
  else
    let wasHidden : Bool := decide (postId ∈ s.hiddenPostIds)
    .ok
      (if wasHidden then s
       else { s with hiddenPostIds := (SettingsStore.hidePost s.hiddenPostIds postId).1 },
       wasHidden)

/-- Continuation of `hidePost` once the remote call settles: on success,
unhide locally only when the server answered `hidden = false`; on
rejection, undo the speculative hide (only if one was applied) and
re-throw. -/
def hidePostSettle (s : ClientState) (postId : String) (wasHidden : Bool)
    (remote : Except String HideResult) :
    ClientState × Except HookError HideResult :=
  match remote with
  | .ok r =>
    (if r.hidden then s
     else { s with hiddenPostIds := (unhidePost s.hiddenPostIds postId).1 },
     .ok r)
  | .error e =>
    (if wasHidden then s
     else { s with hiddenPostIds := (unhidePost s.hiddenPostIds postId).1 },
     .error (.remote e))

/-- A whole `hidePost` invocation with no interleaved state change. -/
def hidePostRun (currentUserId : String) (s : ClientState)
    (postId postAuthorId : String) (remote : Except String HideResult) :
    ClientState × Except HookError HideResult :=
  match hidePostPhase1 currentUserId s postId postAuthorId with
  | .error e => (s, .error e)
  | .ok (s1, wasHidden) => hidePostSettle s1 postId wasHidden remote

end PostInteractions

/-- A `posts` document, restricted to the fields the interaction layer
touches (`likeCount` is `v.optional(v.number())` in the schema). -/
structure ServerPost where
  docId : String
  authorId : String
  likeCount : Option Nat
deriving Repr, DecidableEq

/-- A `postLikes` document: `{ postId, userId, createdAt }` plus its
Convex `_id`. -/
structure LikeRecord where
  docId : Nat
  postId : String
  userId : String
  createdAt : Nat
deriving Repr, DecidableEq

/-- A `hiddenPosts` document: `{ postId, userId, createdAt }` plus its
Convex `_id`. -/
structure HiddenRecord where
  docId : Nat
  postId : String
  userId : String
  createdAt : Nat
deriving Repr, DecidableEq

/-- The slice of the Convex database the three mutations read and write.
`nextId` supplies fresh `_id`s for inserts. -/
structure Db where
  posts : List ServerPost
  postLikes : List LikeRecord
  hiddenPosts : List HiddenRecord
  nextId : Nat
deriving Repr, DecidableEq

/-- Convex `.unique()` on an indexed query: the sole match, `none` when
there is no match, and a thrown error when the index holds more than one
matching document. -/
def uniqueMatch (p : α → Bool) (l : List α) : Except String (Option α) :=
  match l.filter p with
  | [] => .ok none
  | [x] => .ok (some x)
  | _ => .error "unique() query returned more than one document"

/-- Model of `ctx.db.get(postId)` on the `posts` table. -/
def dbGetPost (db : Db) (postId : String) : Option ServerPost :=
  db.posts.find? (fun p => p.docId == postId)

/-- The `by_post_user` index query on `postLikes`. -/
def pairLikes (db : Db) (postId userId : String) : List LikeRecord :=
  db.postLikes.filter (fun r => r.postId == postId && r.userId == userId)

/-- The `by_post_user` index query on `hiddenPosts`. -/
def pairHidden (db : Db) (postId userId : String) : List HiddenRecord :=
  db.hiddenPosts.filter (fun r => r.postId == postId && r.userId == userId)

namespace Posts

/-- The Convex mutation `toggleLike` from `convex/posts.ts`: get the post
(404 when absent), look up the `(postId, userId)` like via the
`by_post_user` index with `.unique()`, delete it when present or insert a
fresh one when absent, recount the post's likes via the `by_post` index,
patch the post's `likeCount` to that total, and return
`{ liked: !existingLike, likeCount: likes.length }`. -/
def toggleLike (db : Db) (postId userId : String) (now : Nat) :
    Except String (Db × LikeResult) :=
  match dbGetPost db postId with
  | none => .error "Post not found"
  | some _post =>
    match uniqueMatch
        (fun r => r.postId == postId && r.userId == userId) db.postLikes with
    | .error e => .error e
    | .ok existingLike =>
      let postLikes1 : List LikeRecord :=
        match existingLike with
        | some r => db.postLikes.filter (fun x => decide (x.docId ≠ r.docId))
        | none => db.postLikes ++ [⟨db.nextId, postId, userId, now⟩]
      let likes : List LikeRecord :=
        postLikes1.filter (fun r => r.postId == postId)
      let db1 : Db :=
        { db with
          postLikes := postLikes1
          posts := db.posts.map (fun p =>
            if p.docId == postId then { p with likeCount := some likes.length } else p)
          nextId := if existingLike.isSome then db.nextId else db.nextId + 1 }
      .ok (db1, { liked := existingLike.isNone, likeCount := likes.length })

/-- The Convex mutation `hidePost` from `convex/posts.ts`: get the post
(404 when absent), reject a self-hide, return `{ hidden: true }` without
writing when a `(postId, userId)` hidden record already exists, else
insert one and return `{ hidden: true }`. -/
def hidePost (db : Db) (postId userId : String) (now : Nat) :
    Except String (Db × HideResult) :=
  match dbGetPost db postId with
  | none => .error "Post not found"
  | some post =>
    if post.authorId == userId then
      .error "You cannot hide your own post."
    else
      match uniqueMatch
          (fun r => r.postId == postId && r.userId == userId) db.hiddenPosts with
      | .error e => .error e
      | .ok (some _) => .ok (db, { hidden := true })
      | .ok none =>
        .ok
          ({ db with
              hiddenPosts := db.hiddenPosts ++ [⟨db.nextId, postId, userId, now⟩]
              nextId := db.nextId + 1 },
           { hidden := true })

/-- The Convex mutation `unhidePost` from `convex/posts.ts`: look up the
`(postId, userId)` hidden record, delete it when present, and return
`{ hidden: false }` unconditionally — with no post-existence or
authorship check. -/
def unhidePost (db : Db) (postId userId : String) :
    Except String (Db × HideResult) :=
  match uniqueMatch
      (fun r => r.postId == postId && r.userId == userId) db.hiddenPosts with
  | .error e => .error e
  | .ok (some r) =>
    .ok
      ({ db with
          hiddenPosts := db.hiddenPosts.filter (fun x => decide (x.docId ≠ r.docId)) },
       { hidden := false })
  | .ok none => .ok (db, { hidden := false })

end Posts

/-! Helper lemmas about the list operations the embedding uses. -/

theorem mem_filter_ne {l : List String} {x p : String} :
    x ∈ l.filter (fun i => decide (i ≠ p)) ↔ x ∈ l ∧ x ≠ p := by
  simp [List.mem_filter]

theorem not_mem_filter_ne {l : List String} {p : String} :
    p ∉ l.filter (fun i => decide (i ≠ p)) := by
  intro h
  exact (mem_filter_ne.mp h).2 rfl

theorem filter_ne_of_not_mem {l : List String} {p : String} (h : p ∉ l) :
    l.filter (fun i => decide (i ≠ p)) = l := by
  refine List.filter_eq_self.mpr (fun x hx => ?_)
  simp only [decide_eq_true_eq]
  rintro rfl
  exact h hx

theorem nodup_append_single {l : List String} {p : String}
    (h : l.Nodup) (hp : p ∉ l) : (l ++ [p]).Nodup := by
  rw [List.nodup_append]
  refine ⟨h, List.nodup_singleton p, ?_⟩
  intro x hx hxp
  rw [List.mem_singleton] at hxp
  subst hxp
  exact hp hx

theorem arrayFromSet_mem (l : List String) (x : String) :
    x ∈ arrayFromSet l ↔ x ∈ l := by
  induction l using arrayFromSet.induct with
  | case1 => simp [arrayFromSet]
  | case2 y ys ih =>
    rw [arrayFromSet]
    simp only [List.mem_cons, ih, mem_filter_ne]
    by_cases hxy : x = y
    · simp [hxy]
    · simp [hxy]

theorem arrayFromSet_nodup (l : List String) : (arrayFromSet l).Nodup := by
  induction l using arrayFromSet.induct with
  | case1 => simp [arrayFromSet]
  | case2 y ys ih =>
    rw [arrayFromSet]
    refine List.nodup_cons.mpr ⟨?_, ih⟩
    intro hy
    rw [arrayFromSet_mem] at hy
    exact (mem_filter_ne.mp hy).2 rfl

/-- Membership of the subject itself after `applyLikeState` is exactly
the boolean that was applied. -/
theorem mem_applyLikeState_self (l : List String) (postId : String)
    (b : Bool) :
    postId ∈ (SettingsStore.applyLikeState l postId b).1 ↔ b = true := by
  by_cases hm : postId ∈ l <;> cases b <;>
    simp [SettingsStore.applyLikeState, hm, not_mem_filter_ne]

theorem uniqueMatch_of_filter_nil {α : Type} {p : α → Bool} {l : List α}
    (h : l.filter p = []) : uniqueMatch p l = .ok none := by
  simp [uniqueMatch, h]

theorem uniqueMatch_of_filter_single {α : Type} {p : α → Bool} {l : List α}
    {x : α} (h : l.filter p = [x]) : uniqueMatch p l = .ok (some x) := by
  simp [uniqueMatch, h]

theorem filter_swap {α : Type} (p q : α → Bool) (l : List α) :
    (l.filter p).filter q = (l.filter q).filter p := by
  simp only [List.filter_filter]
  apply List.filter_congr
  intro x _
  exact Bool.and_comm _ _

/-- Patching the like count of the post found by `dbGetPost` is visible
to a subsequent `dbGetPost`. -/
theorem find?_patch (l : List ServerPost) (postId : String) (n : Nat)
    (post : ServerPost)
    (h : l.find? (fun p => p.docId == postId) = some post) :
    (l.map (fun p => if p.docId == postId
        then { p with likeCount := some n } else p)).find?
      (fun p => p.docId == postId)
      = some { post with likeCount := some n } := by
  induction l with
  | nil => simp at h
  | cons a l ih =>
    rw [List.map_cons]
    by_cases ha : (a.docId == postId) = true
    · rw [@List.find?_cons_of_pos ServerPost
        (fun q => q.docId == postId) a l ha] at h
      injection h with h
      subst h
      rw [if_pos ha]
      exact @List.find?_cons_of_pos ServerPost
        (fun q => q.docId == postId) { a with likeCount := some n } _ ha
    · rw [@List.find?_cons_of_neg ServerPost
        (fun q => q.docId == postId) a l ha] at h
      rw [if_neg ha]
      rw [@List.find?_cons_of_neg ServerPost
        (fun q => q.docId == postId) a _ ha]
      exact ih h

/-- Rolling back a speculative toggle of a previously-unliked subject
restores the like-set bitwise. -/
theorem applyLikeState_rollback_exact (l : List String) (postId : String)
    (hm : postId ∉ l) :
    (SettingsStore.applyLikeState (SettingsStore.toggleLike l postId) postId
      (decide (postId ∈ l))).1 = l := by
  have hfil : (l ++ [postId]).filter (fun i => decide (i ≠ postId)) = l := by
    rw [List.filter_append, filter_ne_of_not_mem hm]
    simp
  simp [SettingsStore.toggleLike, hm, SettingsStore.applyLikeState, hfil]
  intro a ha hap
  exact hm (hap ▸ ha)

/-- Rolling back a speculative toggle restores exactly the original
membership, whatever the prior state. -/
theorem applyLikeState_rollback_mem (l : List String) (postId x : String) :
    x ∈ (SettingsStore.applyLikeState (SettingsStore.toggleLike l postId)
      postId (decide (postId ∈ l))).1 ↔ x ∈ l := by
  by_cases hm : postId ∈ l
  · have hnm := not_mem_filter_ne (l := l) (p := postId)
    simp only [SettingsStore.toggleLike, if_pos hm]
    simp [SettingsStore.applyLikeState, hm, hnm, mem_filter_ne]
    by_cases hxp : x = postId
    · subst hxp
      simp [hm]
    · simp [hxp]
  · rw [applyLikeState_rollback_exact l postId hm]

/-- Rolling back a speculative hide of a previously-unhidden subject
restores the hidden-set bitwise. -/
theorem hidePost_rollback_exact (h : List String) (postId : String)
    (hm : postId ∉ h) :
    (SettingsStore.unhidePost
      (SettingsStore.hidePost h postId).1 postId).1 = h := by
  have hfil : (h ++ [postId]).filter (fun i => decide (i ≠ postId)) = h := by
    rw [List.filter_append, filter_ne_of_not_mem hm]
    simp
  simp [SettingsStore.hidePost, hm, SettingsStore.unhidePost, hfil]
  intro a ha hap
  exact hm (hap ▸ ha)

/-! Claim theorems. -/

/-- C8: `applyLikeState` is idempotent — applying the same
`(postId, liked)` twice yields the like-set of a single application, the
second application returning the state unchanged with no observer
notification; and whenever the requested boolean already matches current
membership, the action returns the state unchanged and does not notify. -/
theorem C8_applyLikeState_idempotent (l : List String) (postId : String)
    (b : Bool) :
    SettingsStore.applyLikeState
        (SettingsStore.applyLikeState l postId b).1 postId b
      = ((SettingsStore.applyLikeState l postId b).1, false)
    ∧ ((postId ∈ l ↔ b = true) →
        SettingsStore.applyLikeState l postId b = (l, false)) := by
  constructor
  · by_cases hm : postId ∈ l <;> cases b <;>
      simp [SettingsStore.applyLikeState, hm, not_mem_filter_ne]
  · intro h
    by_cases hm : postId ∈ l
    · have hb : b = true := h.mp hm
      subst hb
      simp [SettingsStore.applyLikeState, hm]
    · have hb : b = false := by
        cases b
        · rfl
        · exact absurd (h.mpr rfl) hm
      subst hb
      simp [SettingsStore.applyLikeState, hm]

/-- Witness for C8 at `l = ["p1"]`, `postId = "p1"`, `b = true`. -/
theorem C8_applyLikeState_idempotent_witness :
    SettingsStore.applyLikeState
        (SettingsStore.applyLikeState ["p1"] "p1" true).1 "p1" true
      = ((SettingsStore.applyLikeState ["p1"] "p1" true).1, false)
    ∧ SettingsStore.applyLikeState ["p1"] "p1" true = (["p1"], false) :=
  ⟨(C8_applyLikeState_idempotent ["p1"] "p1" true).1,
   (C8_applyLikeState_idempotent ["p1"] "p1" true).2 (by decide)⟩

/-- C9: starting from duplicate-free lists, every view-state store
operation preserves the no-duplicate invariant, and the full-replace
setters `setLikedPostIds` / `setHiddenPostIds` deduplicate arbitrary
input (preserving membership). -/
theorem C9_store_nodup_invariant (ids l h : List String) (postId : String)
    (b : Bool) :
    (SettingsStore.setLikedPostIds ids).Nodup
    ∧ (SettingsStore.setHiddenPostIds ids).Nodup
    ∧ (∀ x, x ∈ SettingsStore.setLikedPostIds ids ↔ x ∈ ids)
    ∧ (l.Nodup → (SettingsStore.applyLikeState l postId b).1.Nodup)
    ∧ (l.Nodup → (SettingsStore.toggleLike l postId).Nodup)
    ∧ (h.Nodup → (SettingsStore.hidePost h postId).1.Nodup)
    ∧ (h.Nodup → (SettingsStore.unhidePost h postId).1.Nodup) := by
  refine ⟨arrayFromSet_nodup ids, arrayFromSet_nodup ids,
    fun x => arrayFromSet_mem ids x, ?_, ?_, ?_, ?_⟩
  · intro hl
    by_cases hm : postId ∈ l
    · cases b
      · simpa [SettingsStore.applyLikeState, hm] using List.Nodup.filter _ hl
      · simpa [SettingsStore.applyLikeState, hm] using hl
    · cases b
      · simpa [SettingsStore.applyLikeState, hm] using hl
      · simpa [SettingsStore.applyLikeState, hm] using nodup_append_single hl hm
  · intro hl
    by_cases hm : postId ∈ l
    · simpa [SettingsStore.toggleLike, hm] using List.Nodup.filter _ hl
    · simpa [SettingsStore.toggleLike, hm] using nodup_append_single hl hm
  · intro hh
    by_cases hm : postId ∈ h
    · simpa [SettingsStore.hidePost, hm] using hh
    · simpa [SettingsStore.hidePost, hm] using nodup_append_single hh hm
  · intro hh
    by_cases hm : postId ∈ h
    · simpa [SettingsStore.unhidePost, hm] using List.Nodup.filter _ hh
    · simpa [SettingsStore.unhidePost, hm] using hh

/-- Witness for C9 at concrete inputs (hypotheses discharged at
`["a"]`, which is duplicate-free). -/
theorem C9_store_nodup_invariant_witness :
    (SettingsStore.setLikedPostIds ["a", "b", "a"]).Nodup
    ∧ (SettingsStore.setHiddenPostIds ["a", "b", "a"]).Nodup
    ∧ ("a" ∈ SettingsStore.setLikedPostIds ["a", "b", "a"]
        ↔ "a" ∈ (["a", "b", "a"] : List String))
    ∧ (SettingsStore.applyLikeState ["a"] "b" true).1.Nodup
    ∧ (SettingsStore.toggleLike ["a"] "b").Nodup
    ∧ (SettingsStore.hidePost ["a"] "b").1.Nodup
    ∧ (SettingsStore.unhidePost ["a"] "b").1.Nodup :=
  ⟨(C9_store_nodup_invariant ["a", "b", "a"] ["a"] ["a"] "b" true).1,
   (C9_store_nodup_invariant ["a", "b", "a"] ["a"] ["a"] "b" true).2.1,
   (C9_store_nodup_invariant ["a", "b", "a"] ["a"] ["a"] "b" true).2.2.1 "a",
   (C9_store_nodup_invariant ["a", "b", "a"] ["a"] ["a"] "b" true).2.2.2.1
     (by decide),
   (C9_store_nodup_invariant ["a", "b", "a"] ["a"] ["a"] "b" true).2.2.2.2.1
     (by decide),
   (C9_store_nodup_invariant ["a", "b", "a"] ["a"] ["a"] "b" true).2.2.2.2.2.1
     (by decide),
   (C9_store_nodup_invariant ["a", "b", "a"] ["a"] ["a"] "b" true).2.2.2.2.2.2
     (by decide)⟩

/-- C2: when the remote `toggleLike` resolves, the authoritative boolean
from the response determines final membership — whatever the speculative
value (`wasLiked`) and whatever the like-set looks like at resolution
time (`s`), the settled like-set contains the id iff the server said
`liked`; the same holds for a whole authenticated run. -/
theorem C2_authoritative_overwrite (s : ClientState) (postId : String)
    (wasLiked : Bool) (r : LikeResult) (currentUserId : String) :
    (postId ∈ (PostInteractions.toggleLikeSettle s postId wasLiked
        (.ok r)).1.likedPostIds ↔ r.liked = true)
    ∧ (currentUserId ≠ "" →
        (postId ∈ (PostInteractions.toggleLikeRun currentUserId s postId
            (.ok r)).1.likedPostIds ↔ r.liked = true)) := by
  constructor
  · simpa [PostInteractions.toggleLikeSettle] using
      mem_applyLikeState_self s.likedPostIds postId r.liked
  · intro hu
    simp only [PostInteractions.toggleLikeRun,
      PostInteractions.toggleLikePhase1, if_neg hu]
    simpa [PostInteractions.toggleLikeSettle] using
      mem_applyLikeState_self _ postId r.liked

/-- Witness for C2: post `p1` speculatively liked, server answers
`{liked: false, likeCount: 4}`; `p1` ends up absent. -/
theorem C2_authoritative_overwrite_witness :
    (("p1" : String) ∈ (PostInteractions.toggleLikeSettle
        ⟨["p1"], []⟩ "p1" false (.ok ⟨false, 4⟩)).1.likedPostIds
      ↔ (false = true))
    ∧ (("p1" : String) ∈ (PostInteractions.toggleLikeRun "u2"
        ⟨[], []⟩ "p1" (.ok ⟨false, 4⟩)).1.likedPostIds
      ↔ (false = true)) :=
  ⟨(C2_authoritative_overwrite ⟨["p1"], []⟩ "p1" false ⟨false, 4⟩ "u2").1,
   (C2_authoritative_overwrite ⟨[], []⟩ "p1" false ⟨false, 4⟩ "u2").2
     (by decide)⟩

/-- C4: with an authenticated viewer and a subject not currently liked,
the synchronous prefix of the reconciler's `toggleLike` — everything that
runs before the remote mutation is awaited — already inserts the id into
the like-set, so at the suspension point the like-set contains the id
(and the captured `wasLiked` snapshot is `false`). -/
theorem C4_speculative_before_confirm (currentUserId : String)
    (s : ClientState) (postId : String)
    (hauth : currentUserId ≠ "") (hnot : postId ∉ s.likedPostIds) :
    PostInteractions.toggleLikePhase1 currentUserId s postId
      = .ok ({ s with likedPostIds := s.likedPostIds ++ [postId] }, false)
    ∧ postId ∈ ({ s with likedPostIds := s.likedPostIds ++ [postId] } :
        ClientState).likedPostIds := by
  constructor
  · simp [PostInteractions.toggleLikePhase1, hauth,
      SettingsStore.toggleLike, hnot]
  · simp

/-- Witness for C4: viewer `u2`, post `p7` initially unliked. -/
theorem C4_speculative_before_confirm_witness :
    PostInteractions.toggleLikePhase1 "u2" ⟨[], []⟩ "p7"
      = .ok (⟨["p7"], []⟩, false)
    ∧ ("p7" : String) ∈ (⟨["p7"], []⟩ : ClientState).likedPostIds :=
  C4_speculative_before_confirm "u2" ⟨[], []⟩ "p7" (by decide) (by decide)

/-- C5: with no current viewer id (the empty string is the falsy guard
value in the hook) the reconciler's `toggleLike` and `hidePost` throw
`Unauthenticated`, leave both membership sets untouched, and never reach
the network: the run result is the same for every remote outcome, i.e.
constant in the remote parameter. -/
theorem C5_unauthenticated_fail_fast (s : ClientState)
    (postId postAuthorId : String) (remoteLike : Except String LikeResult)
    (remoteHide : Except String HideResult) :
    PostInteractions.toggleLikeRun "" s postId remoteLike
      = (s, .error .unauthenticated)
    ∧ PostInteractions.hidePostRun "" s postId postAuthorId remoteHide
      = (s, .error .unauthenticated) := by
  constructor
  · simp [PostInteractions.toggleLikeRun, PostInteractions.toggleLikePhase1]
  · simp [PostInteractions.hidePostRun, PostInteractions.hidePostPhase1]

/-- Counterexample to C1 as stated: with like-set `["a", "b"]` and the
subject `"a"` already liked, a rejecting remote call re-throws the error
and restores membership, but the rolled-back like-set is `["b", "a"]` —
same membership, not bitwise equal to the pre-toggle array (the rollback
re-appends the id at the end instead of its original position). -/
theorem C1_rollback_counterexample :
    (PostInteractions.toggleLikeRun "u1" ⟨["a", "b"], []⟩ "a"
        (.error "network failure")).2 = .error (.remote "network failure")
    ∧ (PostInteractions.toggleLikeRun "u1" ⟨["a", "b"], []⟩ "a"
        (.error "network failure")).1.likedPostIds = ["b", "a"]
    ∧ (PostInteractions.toggleLikeRun "u1" ⟨["a", "b"], []⟩ "a"
        (.error "network failure")).1.likedPostIds ≠ ["a", "b"] :=
  ⟨rfl, rfl, by decide⟩

/-- C1 (amended): when the remote mutation rejects, an authenticated
`toggleLike` re-throws the error and reverts membership to the captured
`wasLiked` — the rolled-back like-set has exactly the pre-toggle
membership, and is bitwise equal to the pre-toggle state whenever the
subject was not previously liked (the spec's scenario); the hidden-set is
never touched.  A rejected `hidePost` (authenticated, non-self) removes
the subject from the hidden-set exactly when the speculative insertion
was applied, leaving the state bitwise equal to the pre-call state, and
re-throws the error. -/
theorem C1_rollback_restores_state (currentUserId : String)
    (s sh : ClientState) (postId postIdH postAuthorId : String)
    (e eh : String)
    (hauth : currentUserId ≠ "") (hself : currentUserId ≠ postAuthorId) :
    (PostInteractions.toggleLikeRun currentUserId s postId (.error e)).2
      = .error (.remote e)
    ∧ (∀ x, x ∈ (PostInteractions.toggleLikeRun currentUserId s postId
          (.error e)).1.likedPostIds ↔ x ∈ s.likedPostIds)
    ∧ (PostInteractions.toggleLikeRun currentUserId s postId
        (.error e)).1.hiddenPostIds = s.hiddenPostIds
    ∧ (postId ∉ s.likedPostIds →
        (PostInteractions.toggleLikeRun currentUserId s postId
          (.error e)).1 = s)
    ∧ PostInteractions.hidePostRun currentUserId sh postIdH postAuthorId
        (.error eh) = (sh, .error (.remote eh)) := by
  have hrun :
      PostInteractions.toggleLikeRun currentUserId s postId (.error e)
        = ({ s with likedPostIds :=
              (SettingsStore.applyLikeState
                (SettingsStore.toggleLike s.likedPostIds postId) postId
                (decide (postId ∈ s.likedPostIds))).1 },
           .error (.remote e)) := by
    simp [PostInteractions.toggleLikeRun, PostInteractions.toggleLikePhase1,
      if_neg hauth, PostInteractions.toggleLikeSettle]
  refine ⟨by rw [hrun], ?_, by rw [hrun], ?_, ?_⟩
  · intro x
    rw [hrun]
    exact applyLikeState_rollback_mem s.likedPostIds postId x
  · intro hnot
    rw [hrun, applyLikeState_rollback_exact s.likedPostIds postId hnot]
  · by_cases hm : postIdH ∈ sh.hiddenPostIds
    · simp [PostInteractions.hidePostRun, PostInteractions.hidePostPhase1,
        if_neg hauth, if_neg hself, hm, PostInteractions.hidePostSettle]
    · have h1 : PostInteractions.hidePostPhase1 currentUserId sh postIdH
          postAuthorId = .ok ({ sh with hiddenPostIds :=
            (SettingsStore.hidePost sh.hiddenPostIds postIdH).1 }, false) := by
        simp [PostInteractions.hidePostPhase1, if_neg hauth, if_neg hself, hm]
      have hfix := hidePost_rollback_exact sh.hiddenPostIds postIdH hm
      simp only [PostInteractions.hidePostRun, h1,
        PostInteractions.hidePostSettle]
      simp [hfix]

/-- Witness for C1 (amended): viewer `u1`, subject `p1` not liked / not
hidden, remote rejections roll both interactions back exactly. -/
theorem C1_rollback_restores_state_witness :
    (PostInteractions.toggleLikeRun "u1" ⟨[], []⟩ "p1" (.error "boom")).2
      = .error (.remote "boom")
    ∧ (("p1" : String) ∈ (PostInteractions.toggleLikeRun "u1" ⟨[], []⟩ "p1"
        (.error "boom")).1.likedPostIds ↔ ("p1" : String) ∈
          (⟨[], []⟩ : ClientState).likedPostIds)
    ∧ (PostInteractions.toggleLikeRun "u1" ⟨[], []⟩ "p1"
        (.error "boom")).1.hiddenPostIds
          = (⟨[], []⟩ : ClientState).hiddenPostIds
    ∧ (PostInteractions.toggleLikeRun "u1" ⟨[], []⟩ "p1"
        (.error "boom")).1 = ⟨[], []⟩
    ∧ PostInteractions.hidePostRun "u1" ⟨[], []⟩ "p1" "author9"
        (.error "boom2") = (⟨[], []⟩, .error (.remote "boom2")) :=
  ⟨(C1_rollback_restores_state "u1" ⟨[], []⟩ ⟨[], []⟩ "p1" "p1" "author9"
      "boom" "boom2" (by decide) (by decide)).1,
   (C1_rollback_restores_state "u1" ⟨[], []⟩ ⟨[], []⟩ "p1" "p1" "author9"
      "boom" "boom2" (by decide) (by decide)).2.1 "p1",
   (C1_rollback_restores_state "u1" ⟨[], []⟩ ⟨[], []⟩ "p1" "p1" "author9"
      "boom" "boom2" (by decide) (by decide)).2.2.1,
   (C1_rollback_restores_state "u1" ⟨[], []⟩ ⟨[], []⟩ "p1" "p1" "author9"
      "boom" "boom2" (by decide) (by decide)).2.2.2.1 (by decide),
   (C1_rollback_restores_state "u1" ⟨[], []⟩ ⟨[], []⟩ "p1" "p1" "author9"
      "boom" "boom2" (by decide) (by decide)).2.2.2.2⟩

/-- C6: a self-hide is rejected without side effect on both sides: the
reconciler throws `SelfActionForbidden` before any speculative mutation
(the state is returned untouched and the result is constant in the
remote outcome, so no network call is made), and independently the
server `hidePost` mutation rejects whenever the post's `authorId` equals
the calling `userId` (committing no writes). -/
theorem C6_self_hide_rejected (s : ClientState)
    (postId : String) (remote : Except String HideResult)
    (db : Db) (post : ServerPost) (postAuthorId postIdS userIdS : String)
    (now : Nat)
    (hauth : postAuthorId ≠ "")
    (hpost : dbGetPost db postIdS = some post)
    (hself : post.authorId = userIdS) :
    PostInteractions.hidePostRun postAuthorId s postId postAuthorId remote
      = (s, .error .selfActionForbidden)
    ∧ Posts.hidePost db postIdS userIdS now
      = .error "You cannot hide your own post." := by
  constructor
  · simp [PostInteractions.hidePostRun, PostInteractions.hidePostPhase1,
      hauth]
  · simp [Posts.hidePost, hpost, hself]

/-- Witness for C6: viewer `u1` hiding the post `p1` they authored. -/
theorem C6_self_hide_rejected_witness :
    PostInteractions.hidePostRun "u1" ⟨[], []⟩ "p1" "u1" (.ok ⟨true⟩)
      = (⟨[], []⟩, .error .selfActionForbidden)
    ∧ Posts.hidePost ⟨[⟨"p1", "u1", some 0⟩], [], [], 0⟩ "p1" "u1" 0
      = .error "You cannot hide your own post." :=
  C6_self_hide_rejected ⟨[], []⟩ "p1" (.ok ⟨true⟩)
    ⟨[⟨"p1", "u1", some 0⟩], [], [], 0⟩ ⟨"p1", "u1", some 0⟩ "u1" "p1" "u1"
    0 (by decide) rfl rfl

/-- Counterexample to C7 as stated: a database state in which a
`(p1, u1)` hidden record exists but the post itself has been deleted —
`hidePost` throws `Post not found` instead of returning
`{hidden: true}`, because the existence check precedes the
already-hidden check. -/
theorem C7_hide_idempotent_counterexample :
    pairHidden ⟨[], [], [⟨0, "p1", "u1", 0⟩], 1⟩ "p1" "u1" ≠ []
    ∧ Posts.hidePost ⟨[], [], [⟨0, "p1", "u1", 0⟩], 1⟩ "p1" "u1" 3
      = .error "Post not found" :=
  ⟨by decide, rfl⟩

/-- C7 (amended): server-side hiding is idempotent on states that pass
the mutation's guards — whenever the post exists, the caller is not its
author, and exactly one `(postId, userId)` hidden record exists (the
`by_post_user` index invariant), `hidePost` returns `{hidden: true}` and
leaves the database bitwise unchanged; consequently, whenever a
`hidePost` call succeeds, running it again returns `{hidden: true}` and
changes nothing, so two runs have the same database effect as one. -/
theorem C7_hide_idempotent :
    (∀ (db : Db) (post : ServerPost) (postId userId : String) (t : Nat),
        dbGetPost db postId = some post →
        post.authorId ≠ userId →
        (pairHidden db postId userId).length = 1 →
        Posts.hidePost db postId userId t = .ok (db, { hidden := true }))
    ∧ (∀ (db0 db1 : Db) (res1 : HideResult) (postId userId : String)
        (t1 t2 : Nat),
        Posts.hidePost db0 postId userId t1 = .ok (db1, res1) →
        Posts.hidePost db1 postId userId t2
          = .ok (db1, { hidden := true })) := by
  constructor
  · intro db post postId userId t hpost hauthor hlen
    obtain ⟨x, hx⟩ := List.length_eq_one.mp hlen
    have hx' : db.hiddenPosts.filter
        (fun r => r.postId == postId && r.userId == userId) = [x] := hx
    have hbeq : (post.authorId == userId) = false := by
      simp only [beq_eq_false_iff_ne, ne_eq]
      exact hauthor
    have hu := uniqueMatch_of_filter_single hx'
    simp [Posts.hidePost, hpost, hbeq, hu]
  · intro db0 db1 res1 postId userId t1 t2 hrun
    cases hdb : dbGetPost db0 postId with
    | none => simp [Posts.hidePost, hdb] at hrun
    | some post =>
      by_cases hA : (post.authorId == userId) = true
      · simp [Posts.hidePost, hdb, hA] at hrun
      · rcases hf : db0.hiddenPosts.filter
            (fun r => r.postId == postId && r.userId == userId) with
          _ | ⟨x, rest⟩
        · have hu := uniqueMatch_of_filter_nil hf
          simp only [Posts.hidePost, hdb, hA, hu, Bool.false_eq_true,
            if_false, Except.ok.injEq, Prod.mk.injEq] at hrun
          obtain ⟨hdb1, _⟩ := hrun
          subst hdb1
          have hdb' : dbGetPost
              { db0 with
                hiddenPosts := (db0.hiddenPosts
                  ++ [{ docId := db0.nextId, postId := postId,
                        userId := userId, createdAt := t1 }])
                nextId := db0.nextId + 1 } postId = some post := hdb
          have hf1 : ((db0.hiddenPosts
                ++ [({ docId := db0.nextId, postId := postId,
                       userId := userId, createdAt := t1 } :
                      HiddenRecord)]).filter
              (fun r => r.postId == postId && r.userId == userId))
              = [{ docId := db0.nextId, postId := postId,
                   userId := userId, createdAt := t1 }] := by
            rw [List.filter_append, hf]
            simp
          have hu1 := uniqueMatch_of_filter_single hf1
          simp [Posts.hidePost, hdb', hA, hu1]
        · cases rest with
          | nil =>
            have hu := uniqueMatch_of_filter_single hf
            simp only [Posts.hidePost, hdb, hA, hu, Bool.false_eq_true,
              if_false, Except.ok.injEq, Prod.mk.injEq] at hrun
            obtain ⟨hdb1, _⟩ := hrun
            subst hdb1
            have hu' := uniqueMatch_of_filter_single hf
            simp [Posts.hidePost, hdb, hA, hu']
          | cons y rest2 =>
            have hu : uniqueMatch
                (fun r => r.postId == postId && r.userId == userId)
                db0.hiddenPosts
                = .error "unique() query returned more than one document" := by
              simp [uniqueMatch, hf]
            simp [Posts.hidePost, hdb, hA, hu] at hrun

/-- Witness for C7 (amended): a state where `u1` already hides `p1`, and
a fresh successful hide of `p1` by `u1`. -/
theorem C7_hide_idempotent_witness :
    Posts.hidePost ⟨[⟨"p1", "a1", some 0⟩], [], [⟨0, "p1", "u1", 5⟩], 1⟩
        "p1" "u1" 6
      = .ok (⟨[⟨"p1", "a1", some 0⟩], [], [⟨0, "p1", "u1", 5⟩], 1⟩,
          { hidden := true })
    ∧ Posts.hidePost ⟨[⟨"p1", "a1", some 0⟩], [], [⟨0, "p1", "u1", 5⟩], 1⟩
        "p1" "u1" 7
      = .ok (⟨[⟨"p1", "a1", some 0⟩], [], [⟨0, "p1", "u1", 5⟩], 1⟩,
          { hidden := true }) :=
  ⟨C7_hide_idempotent.1 ⟨[⟨"p1", "a1", some 0⟩], [], [⟨0, "p1", "u1", 5⟩], 1⟩
      ⟨"p1", "a1", some 0⟩ "p1" "u1" 6 rfl (by decide) (by decide),
   C7_hide_idempotent.2 ⟨[⟨"p1", "a1", some 0⟩], [], [], 0⟩
      ⟨[⟨"p1", "a1", some 0⟩], [], [⟨0, "p1", "u1", 5⟩], 1⟩
      { hidden := true } "p1" "u1" 5 7 rfl⟩

/-- C10: `unhidePost` deletes the `(postId, userId)` hidden record when
one exists (and nothing else), returns `{hidden: false}` in all cases,
and is idempotent; it consults neither the post's existence nor its
authorship, so the statement needs no hypothesis about `db.posts` at all
and holds in particular when the post has been deleted.  The two
hypotheses are the Convex invariants that the `by_post_user` index holds
at most one record per pair and that document ids are distinct. -/
theorem C10_unhidePost_deletes (db : Db) (postId userId : String)
    (hwf : (pairHidden db postId userId).length ≤ 1)
    (hids : (db.hiddenPosts.map (fun r => r.docId)).Nodup) :
    Posts.unhidePost db postId userId
      = .ok ({ db with hiddenPosts := (db.hiddenPosts.filter
          (fun r => !(r.postId == postId && r.userId == userId))) },
        { hidden := false })
    ∧ Posts.unhidePost
        { db with hiddenPosts := (db.hiddenPosts.filter
            (fun r => !(r.postId == postId && r.userId == userId))) }
        postId userId
      = .ok ({ db with hiddenPosts := (db.hiddenPosts.filter
            (fun r => !(r.postId == postId && r.userId == userId))) },
          { hidden := false }) := by
  constructor
  · rcases hf : db.hiddenPosts.filter
        (fun r => r.postId == postId && r.userId == userId) with
      _ | ⟨x, _ | ⟨y, rest⟩⟩
    · have hu := uniqueMatch_of_filter_nil hf
      have hall := List.filter_eq_nil_iff.mp hf
      have hself : db.hiddenPosts.filter
          (fun r => !(r.postId == postId && r.userId == userId))
          = db.hiddenPosts := by
        refine List.filter_eq_self.mpr (fun a ha => ?_)
        cases hpa : (a.postId == postId && a.userId == userId) with
        | false => simp [hpa]
        | true => exact absurd hpa (hall a ha)
      simp only [Bool.not_and] at hself
      simp [Posts.unhidePost, hu, hself]
    · have hu := uniqueMatch_of_filter_single hf
      have hxmem : x ∈ db.hiddenPosts.filter
          (fun r => r.postId == postId && r.userId == userId) := by
        rw [hf]
        exact List.mem_singleton_self x
      have hx_in : x ∈ db.hiddenPosts := (List.mem_filter.mp hxmem).1
      have hx_p : (x.postId == postId && x.userId == userId) = true :=
        (List.mem_filter.mp hxmem).2
      have hcong : ∀ r ∈ db.hiddenPosts,
          (decide (r.docId ≠ x.docId))
            = !(r.postId == postId && r.userId == userId) := by
        intro r hr
        by_cases hpr : (r.postId == postId && r.userId == userId) = true
        · have hrf : r ∈ db.hiddenPosts.filter
              (fun q => q.postId == postId && q.userId == userId) :=
            List.mem_filter.mpr ⟨hr, hpr⟩
          rw [hf, List.mem_singleton] at hrf
          subst hrf
          simp [hpr]
        · have hnx : r ≠ x := by
            intro hrx
            exact hpr (hrx ▸ hx_p)
          have hdx : r.docId ≠ x.docId := by
            intro hdd
            exact hnx (List.inj_on_of_nodup_map hids hr hx_in hdd)
          simp only [Bool.not_eq_true] at hpr
          simp [hpr, hdx]
      have heq : db.hiddenPosts.filter (fun r => decide (r.docId ≠ x.docId))
          = db.hiddenPosts.filter
              (fun r => !(r.postId == postId && r.userId == userId)) :=
        List.filter_congr hcong
      simp only [ne_eq, decide_not] at heq
      simp only [Bool.not_and] at heq
      simp [Posts.unhidePost, hu, heq]
    · exfalso
      have hlen : (pairHidden db postId userId).length
          = (x :: y :: rest).length := by
        rw [pairHidden, hf]
      rw [hlen] at hwf
      simp at hwf
  · have hnil : (db.hiddenPosts.filter
        (fun r => !(r.postId == postId && r.userId == userId))).filter
        (fun r => r.postId == postId && r.userId == userId) = [] := by
      rw [List.filter_filter]
      refine List.filter_eq_nil_iff.mpr (fun a _ => ?_)
      cases hpa : (a.postId == postId && a.userId == userId) <;> simp [hpa]
    simp only [Bool.not_and] at hnil
    have hu := uniqueMatch_of_filter_nil hnil
    simp [Posts.unhidePost, hu]

/-- Witness for C10: post `p1` deleted (empty `posts` table), hidden
record `(p1, u1)` present. -/
theorem C10_unhidePost_deletes_witness :
    Posts.unhidePost ⟨[], [], [⟨0, "p1", "u1", 2⟩], 1⟩ "p1" "u1"
      = .ok ({ (⟨[], [], [⟨0, "p1", "u1", 2⟩], 1⟩ : Db) with
          hiddenPosts := (List.filter
            (fun r => !(r.postId == "p1" && r.userId == "u1"))
            [⟨0, "p1", "u1", 2⟩]) }, { hidden := false })
    ∧ Posts.unhidePost
        { (⟨[], [], [⟨0, "p1", "u1", 2⟩], 1⟩ : Db) with
          hiddenPosts := (List.filter
            (fun r => !(r.postId == "p1" && r.userId == "u1"))
            [⟨0, "p1", "u1", 2⟩]) } "p1" "u1"
      = .ok ({ (⟨[], [], [⟨0, "p1", "u1", 2⟩], 1⟩ : Db) with
          hiddenPosts := (List.filter
            (fun r => !(r.postId == "p1" && r.userId == "u1"))
            [⟨0, "p1", "u1", 2⟩]) }, { hidden := false }) :=
  C10_unhidePost_deletes ⟨[], [], [⟨0, "p1", "u1", 2⟩], 1⟩ "p1" "u1"
    (by decide) (by decide)

/-- C3: the server `toggleLike` is an authoritative toggle with a
recounted total.  For an existing post (with at most one `(postId,
userId)` like record, the `by_post_user` index invariant): the mutation
succeeds; it returns `liked = true` iff no like record existed before
the call; afterwards the pair has exactly one record when it answered
`liked` and none otherwise; the returned `likeCount` is the number of
like records for the post after the toggle; and the post's `likeCount`
field is patched to that value.  When the post does not exist the
mutation fails with `Post not found`. -/
theorem C3_server_toggleLike :
    (∀ (db : Db) (post : ServerPost) (postId userId : String) (now : Nat),
        dbGetPost db postId = some post →
        (pairLikes db postId userId).length ≤ 1 →
        (Posts.toggleLike db postId userId now).toOption.isSome = true)
    ∧ (∀ (db db1 : Db) (post : ServerPost) (res : LikeResult)
        (postId userId : String) (now : Nat),
        dbGetPost db postId = some post →
        Posts.toggleLike db postId userId now = .ok (db1, res) →
        ((res.liked = true ↔ pairLikes db postId userId = [])
         ∧ (pairLikes db1 postId userId).length
             = (if res.liked then 1 else 0)
         ∧ res.likeCount
             = (db1.postLikes.filter (fun r => r.postId == postId)).length
         ∧ dbGetPost db1 postId
             = some { post with likeCount := some res.likeCount }))
    ∧ (∀ (db : Db) (postId userId : String) (now : Nat),
        dbGetPost db postId = none →
        Posts.toggleLike db postId userId now
          = .error "Post not found") := by
  refine ⟨?_, ?_, ?_⟩
  · intro db post postId userId now hpost hwf
    rcases hf : db.postLikes.filter
        (fun r => r.postId == postId && r.userId == userId) with
      _ | ⟨x, _ | ⟨y, rest⟩⟩
    · have hu := uniqueMatch_of_filter_nil hf
      simp [Posts.toggleLike, hpost, hu, Except.toOption]
    · have hu := uniqueMatch_of_filter_single hf
      simp [Posts.toggleLike, hpost, hu, Except.toOption]
    · exfalso
      have hlen : (pairLikes db postId userId).length
          = (x :: y :: rest).length := by
        rw [pairLikes, hf]
      rw [hlen] at hwf
      simp at hwf
  · intro db db1 post res postId userId now hpost hrun
    rcases hf : db.postLikes.filter
        (fun r => r.postId == postId && r.userId == userId) with
      _ | ⟨x, _ | ⟨y, rest⟩⟩
    · -- no prior like record: a fresh one is inserted
      have hu := uniqueMatch_of_filter_nil hf
      simp only [Posts.toggleLike, hpost, hu, Option.isSome_none,
        Option.isNone_none, Bool.false_eq_true, if_false,
        Except.ok.injEq, Prod.mk.injEq] at hrun
      obtain ⟨hdb1, hres⟩ := hrun
      subst hdb1
      subst hres
      refine ⟨by simp [pairLikes, hf], ?_, rfl, ?_⟩
      · have h2 : (List.filter
            (fun r => r.postId == postId && r.userId == userId)
            (db.postLikes ++ [{ docId := db.nextId, postId := postId, userId := userId, createdAt := now }]))
            = [{ docId := db.nextId, postId := postId, userId := userId, createdAt := now }] := by
          rw [List.filter_append, hf]
          simp
        simp [pairLikes, h2]
      · exact find?_patch db.posts postId _ post hpost
    · -- an existing like record is deleted
      have hu := uniqueMatch_of_filter_single hf
      simp only [Posts.toggleLike, hpost, hu, Option.isSome_some,
        Option.isNone_some, eq_self_iff_true, if_true,
        Except.ok.injEq, Prod.mk.injEq] at hrun
      obtain ⟨hdb1, hres⟩ := hrun
      subst hdb1
      subst hres
      refine ⟨by simp [pairLikes, hf], ?_, rfl, ?_⟩
      · have h2 : (List.filter
            (fun r => r.postId == postId && r.userId == userId)
            (db.postLikes.filter (fun q => decide (q.docId ≠ x.docId))))
            = [] := by
          rw [filter_swap, hf]
          simp
        simp only [ne_eq, decide_not] at h2
        simp [pairLikes, h2]
      · exact find?_patch db.posts postId _ post hpost
    · have hu : uniqueMatch
          (fun r => r.postId == postId && r.userId == userId) db.postLikes
          = .error "unique() query returned more than one document" := by
        simp [uniqueMatch, hf]
      simp [Posts.toggleLike, hpost, hu] at hrun
  · intro db postId userId now h0
    simp [Posts.toggleLike, h0]

/-- Witness for C3: post `p1` (author `a1`, zero likes) toggled by `u1`:
the mutation succeeds with `{liked: true, likeCount: 1}`, inserting the
record and patching the post; on the empty database it fails with
`Post not found`. -/
theorem C3_server_toggleLike_witness :
    (Posts.toggleLike ⟨[⟨"p1", "a1", some 0⟩], [], [], 0⟩ "p1" "u1"
        7).toOption.isSome = true
    ∧ (((⟨true, 1⟩ : LikeResult).liked = true
          ↔ pairLikes ⟨[⟨"p1", "a1", some 0⟩], [], [], 0⟩ "p1" "u1" = [])
       ∧ (pairLikes ⟨[⟨"p1", "a1", some 1⟩], [⟨0, "p1", "u1", 7⟩], [], 1⟩
            "p1" "u1").length
           = (if (⟨true, 1⟩ : LikeResult).liked then 1 else 0)
       ∧ (⟨true, 1⟩ : LikeResult).likeCount
           = (List.filter (fun r => r.postId == "p1")
              (⟨[⟨"p1", "a1", some 1⟩], [⟨0, "p1", "u1", 7⟩], [], 1⟩ :
                Db).postLikes).length
       ∧ dbGetPost ⟨[⟨"p1", "a1", some 1⟩], [⟨0, "p1", "u1", 7⟩], [], 1⟩
            "p1"
           = some { (⟨"p1", "a1", some 0⟩ : ServerPost) with
               likeCount := some (⟨true, 1⟩ : LikeResult).likeCount })
    ∧ Posts.toggleLike ⟨[], [], [], 0⟩ "p1" "u1" 7
        = .error "Post not found" :=
  ⟨C3_server_toggleLike.1 ⟨[⟨"p1", "a1", some 0⟩], [], [], 0⟩
      ⟨"p1", "a1", some 0⟩ "p1" "u1" 7 rfl (by decide),
   C3_server_toggleLike.2.1 ⟨[⟨"p1", "a1", some 0⟩], [], [], 0⟩
      ⟨[⟨"p1", "a1", some 1⟩], [⟨0, "p1", "u1", 7⟩], [], 1⟩
      ⟨"p1", "a1", some 0⟩ ⟨true, 1⟩ "p1" "u1" 7 rfl rfl,
   C3_server_toggleLike.2.2 ⟨[], [], [], 0⟩ "p1" "u1" 7 rfl⟩

end Framez
